import Mathlib

/-!
# Alembic points writer and reader (`source/blender/alembic/intern/abc_points.cc`)

A shallow embedding of `AbcPointsWriter::do_write`,
`AbcPointsReader::accepts_object_type`, `AbcPointsReader::readObjectData`,
`read_points_sample` and `AbcPointsReader::read_mesh`.

Conventions of the embedding.

* Scalars (`float`) are an arbitrary type `F`; the writer only subtracts and
  negates them, so `F` carries `Sub` and `Neg` and nothing else is assumed.
* Functions, constants and types that the file uses but does not define
  (`psys_get_particle_state`, `mul_v3_m4v3`, `PARS_NO_DISP`, `OB_MESH`,
  `read_mverts`, ...) are fields of an environment structure, so every theorem
  holds for all of their possible values.
* A C pointer that may be `NULL` is an `Option`; a write through `NULL` is the
  result `Fault.nullDeref`, an Alembic exception that nothing catches is
  `Fault.uncaught`.
-/

namespace AbcPoints

/-! ## Export: data model -/

/-- A `float[3]` / `Imath::V3f`. -/
structure V3 (F : Type) where
  x : F
  y : F
  z : F
deriving DecidableEq, Repr

/-- The fields of `ParticleKey` (`DNA_particle_types.h`). -/
structure ParticleKey (F : Type) where
  co : V3 F
  vel : V3 F
  rot : F × F × F × F
  ave : V3 F
  time : F
deriving DecidableEq, Repr

/-- The fields of `ParticleData` the writer reads. `flag` is the bit pattern of
the C `int`. -/
structure ParticleData (F : Type) where
  prev_state : ParticleKey F
  flag : Nat
  size : F
deriving DecidableEq, Repr

/-- A `ParticleSystem` with a non-null `particles` array; `totpart` is the
length of that array. -/
structure ParticleSystem (F : Type) where
  particles : List (ParticleData F)

/-- The field `totpart` of the particle system. -/
def ParticleSystem.totpart {F : Type} (psys : ParticleSystem F) : Nat :=
  psys.particles.length

/-- What `do_write` takes from outside `abc_points.cc`: the two flag masks of
`DNA_particle_types.h`, the frame time `DEG_get_ctime(m_settings.depsgraph)`,
the matrix `m_object->imat` with `mul_v3_m4v3` specialised to it,
`psys_get_particle_state(&sim, p, &state, 0)` as a function of `p` and of the
incoming `state` that returns the `int` result and the outgoing `state`, the
value of `bounds()`, and the indeterminate initial value of the local `state`. -/
structure ExportEnv (F : Type) where
  PARS_NO_DISP : Nat
  PARS_UNEXIST : Nat
  ctime : F
  mul_v3_m4v3_imat : V3 F → V3 F
  psys_get_particle_state : Nat → ParticleKey F → Int × ParticleKey F
  bounds : V3 F × V3 F
  state0 : ParticleKey F

/-- The function `sub_v3_v3v3(r, a, b)`: `r = a - b`, component by component. -/
def sub_v3_v3v3 {F : Type} [Sub F] (a b : V3 F) : V3 F :=
  ⟨a.x - b.x, a.y - b.y, a.z - b.z⟩

/-- The locals of `do_write` that the loop updates. -/
structure WriteLoop (F : Type) where
  state : ParticleKey F
  index : Nat
  points : List (V3 F)
  velocities : List (V3 F)
  widths : List F
  ids : List Nat

/-- The locals before the first iteration. -/
def WriteLoop.start {F : Type} (env : ExportEnv F) : WriteLoop F :=
  { state := env.state0, index := 0, points := [], velocities := [], widths := [], ids := [] }

/-- One iteration of the `for` loop of `do_write`, for particle index `p` with
`m_psys->particles[p] = part`. -/
def do_write_iter {F : Type} [Sub F] [Neg F] (env : ExportEnv F) (p : Nat)
    (part : ParticleData F) (s : WriteLoop F) : WriteLoop F :=
  if part.flag &&& (env.PARS_NO_DISP ||| env.PARS_UNEXIST) ≠ 0 then s
  else
    let r := env.psys_get_particle_state p { s.state with time := env.ctime }
    if r.1 = 0 then { s with state := r.2 }
    else
      let pos := env.mul_v3_m4v3_imat r.2.co
      let vel := sub_v3_v3v3 r.2.co part.prev_state.co
      { state := r.2
        index := s.index + 1
        points := s.points ++ [⟨pos.x, pos.z, -pos.y⟩]
        velocities := s.velocities ++ [⟨vel.x, vel.z, -vel.y⟩]
        widths := s.widths ++ [part.size]
        ids := s.ids ++ [s.index] }

/-- The `for` loop of `do_write` from index `p` on, over the particles
`m_psys->particles[p ..]`. -/
def do_write_loop {F : Type} [Sub F] [Neg F] (env : ExportEnv F) :
    Nat → List (ParticleData F) → WriteLoop F → WriteLoop F
  | _, [], s => s
  | p, part :: rest, s => do_write_loop env (p + 1) rest (do_write_iter env p part s)

/-- An `OPointsSchema::Sample(psample, idsample, vsample, wsample)` with its
self bounds. -/
structure OPointsSample (F : Type) where
  positions : List (V3 F)
  ids : List Nat
  velocities : List (V3 F)
  widths : List F
  selfBounds : V3 F × V3 F

/-- The method `AbcPointsWriter::do_write`: `none` when `m_psys` is null and
nothing is written, otherwise the sample passed to `m_schema.set`. The lattice
deform data created before the loop and freed after it is not part of the
sample; what it does to the state query is inside `psys_get_particle_state`.
The counter `index` is a `uint64_t` that is at most `totpart`, an `int`, so it
does not wrap. -/
def do_write {F : Type} [Sub F] [Neg F] (env : ExportEnv F)
    (m_psys : Option (ParticleSystem F)) : Option (OPointsSample F) :=
  match m_psys with
  | none => none
  | some psys =>
    let s := do_write_loop env 0 psys.particles (WriteLoop.start env)
    some { positions := s.points, ids := s.ids, velocities := s.velocities,
           widths := s.widths, selfBounds := env.bounds }

/-! ## Export: the particles that are exported -/

/-- The value of the local `state` when iteration `p` starts: what the
iterations on the particles `0 .. p-1` left in it. -/
def stateBefore {F : Type} [Sub F] [Neg F] (env : ExportEnv F)
    (parts : List (ParticleData F)) (p : Nat) : ParticleKey F :=
  (do_write_loop env 0 (parts.take p) (WriteLoop.start env)).state

/-- The result of the call `psys_get_particle_state(&sim, p, &state, 0)` made
in iteration `p`. -/
def stateQuery {F : Type} [Sub F] [Neg F] (env : ExportEnv F)
    (parts : List (ParticleData F)) (p : Nat) : Int × ParticleKey F :=
  env.psys_get_particle_state p { stateBefore env parts p with time := env.ctime }

/-- Particle `p` is exported: its flag has neither `PARS_NO_DISP` nor
`PARS_UNEXIST` set and the state query returns non-zero. -/
def isExported {F : Type} [Sub F] [Neg F] (env : ExportEnv F)
    (parts : List (ParticleData F)) (p : Nat) : Bool :=
  match parts[p]? with
  | none => false
  | some part =>
    decide (part.flag &&& env.PARS_NO_DISP = 0) && decide (part.flag &&& env.PARS_UNEXIST = 0)
      && decide ((stateQuery env parts p).1 ≠ 0)

/-- The exported particle indices of `[0, totpart)`, in increasing order. -/
def exportedIndices {F : Type} [Sub F] [Neg F] (env : ExportEnv F)
    (parts : List (ParticleData F)) : List Nat :=
  (List.range parts.length).filter (isExported env parts)

/-- The position entry derived from a particle whose queried state is `st`. -/
def pointOf {F : Type} [Neg F] (env : ExportEnv F) (st : ParticleKey F) : V3 F :=
  ⟨(env.mul_v3_m4v3_imat st.co).x, (env.mul_v3_m4v3_imat st.co).z,
    -(env.mul_v3_m4v3_imat st.co).y⟩

/-- The velocity entry derived from particle `part` whose queried state is `st`. -/
def velocityOf {F : Type} [Sub F] [Neg F] (part : ParticleData F) (st : ParticleKey F) : V3 F :=
  ⟨st.co.x - part.prev_state.co.x, st.co.z - part.prev_state.co.z,
    -(st.co.y - part.prev_state.co.y)⟩

/-- The identifier `do_write` gives to particle `p`: the entry of the id array
at the place particle `p` has among the exported particles; `none` when `p` is
not exported. -/
def exportedId {F : Type} [Sub F] [Neg F] (env : ExportEnv F)
    (psys : ParticleSystem F) (p : Nat) : Option Nat :=
  if p ∈ exportedIndices env psys.particles then
    match do_write env (some psys) with
    | none => none
    | some sample => sample.ids[(exportedIndices env psys.particles).indexOf p]?
  else none

/-- The arrays held in `s` line up with the list `K` of particle indices: all
four have the length of `K`, the counter `index` equals that length, and the
`i`-th entry of each array is derived from particle `K[i]`. -/
def Aligned {F : Type} [Sub F] [Neg F] (env : ExportEnv F) (parts : List (ParticleData F))
    (K : List Nat) (s : WriteLoop F) : Prop :=
  s.index = K.length ∧ s.points.length = K.length ∧ s.velocities.length = K.length ∧
  s.widths.length = K.length ∧ s.ids.length = K.length ∧
  ∀ i p : Nat, K[i]? = some p → ∃ part, parts[p]? = some part ∧
    s.points[i]? = some (pointOf env (stateQuery env parts p).2) ∧
    s.velocities[i]? = some (velocityOf part (stateQuery env parts p).2) ∧
    s.widths[i]? = some part.size ∧
    s.ids[i]? = some i

/-! ## Import: data model -/

/-- The two ways a call can fail to return: a write through a null pointer, and
an Alembic exception that no `catch` of this file handles. -/
inductive Fault where
  | nullDeref
  | uncaught (what : String)
deriving DecidableEq, Repr

/-- The argument `const char **err_str`: `none` is `NULL`, `some c` points to a
`const char *` variable that holds `c` (`none` a null string, `some m` the
message `m`). -/
abbrev ErrStr := Option (Option String)

/-- The fields of `Mesh` the reader touches; `mvert` is the vertex array. -/
structure Mesh (V : Type) where
  name : String
  totvert : Nat
  totedge : Nat
  totface : Nat
  totloop : Nat
  totpoly : Nat
  mvert : List V
deriving DecidableEq, Repr

/-- A modifier on an object. -/
inductive Modifier where
  | meshSequenceCache
deriving DecidableEq, Repr

/-- The fields of `Object` the reader touches; `data` is a pointer into the
mesh list of `Main` (`none` is `NULL`). -/
structure Object where
  name : String
  type : Int
  data : Option Nat
  modifiers : List Modifier
deriving DecidableEq, Repr

/-- The database `Main`: its mesh datablocks and its objects. A pointer to a
mesh or an object is its place in the list. -/
structure Main (V : Type) where
  meshes : List (Mesh V)
  objects : List Object
deriving DecidableEq, Repr

/-- An `IPointsSchema::Sample`; `positions` is `getPositions()`. -/
structure IPointsSample (P : Type) where
  positions : List P
deriving DecidableEq, Repr

/-- An `IPointsSchema`, by what the reader asks of it: `getValue(selector)`,
which returns a sample or raises an `Alembic::Util::Exception` (its `what()`),
`has_property(getArbGeomParams(), "N")`, and the property
`IN3fArrayProperty(prop, "N", itime)` for the time of a selector, `none` when
it is not valid, otherwise its `getValue`. -/
structure IPointsSchema (Sel P N : Type) where
  getValue : Sel → Except String (IPointsSample P)
  has_property_N : Bool
  normals_prop : Sel → Option (Sel → List N)

/-- The fields of `ImportSettings` read here. -/
structure ImportSettings where
  validate_meshes : Bool
deriving DecidableEq, Repr

/-- What the reader takes from outside `abc_points.cc`: the constant `OB_MESH`,
`IPoints::matches` on headers of type `H`, `read_mverts` (as the new contents
of the vertex array), `BKE_mesh_validate`, `BKE_mesh_nomain_to_mesh` (source,
destination, new contents of the destination), `has_animations`, and the
zero-filled vertex of a new vertex array. -/
structure ImportEnv (H V Sel P N : Type) where
  OB_MESH : Int
  IPoints_matches : H → Bool
  read_mverts : List V → List P → Option (List N) → List V
  BKE_mesh_validate : Mesh V → Mesh V
  BKE_mesh_nomain_to_mesh : Mesh V → Mesh V → Mesh V
  has_animations : IPointsSchema Sel P N → ImportSettings → Bool
  zero_vert : V

/-- The members of `AbcPointsReader` used here. -/
structure AbcPointsReader (Sel P N : Type) where
  m_schema : IPointsSchema Sel P N
  m_settings : ImportSettings
  m_object : Option Nat
  m_data_name : String
  m_object_name : String

/-! ## Import: `accepts_object_type` -/

/-- The message set when the header is not a Points header. -/
def err_not_points : String :=
  "Object type mismatch, Alembic object path pointed to Points when importing, but not any " ++
    "more."

/-- The message set when the object is not a mesh object. -/
def err_not_mesh : String :=
  "Object type mismatch, Alembic object path points to Points."

/-- The assignment `*err_str = msg`. -/
def set_err_str (err_str : ErrStr) (msg : String) : Except Fault ErrStr :=
  match err_str with
  | none => .error .nullDeref
  | some _ => .ok (some (some msg))

/-- The method `AbcPointsReader::accepts_object_type`: the returned `bool`
and `err_str` after the call. -/
def accepts_object_type {H V Sel P N : Type} (env : ImportEnv H V Sel P N)
    (alembic_header : H) (ob : Object) (err_str : ErrStr) : Except Fault (Bool × ErrStr) :=
  if !env.IPoints_matches alembic_header then
    match set_err_str err_str err_not_points with
    | .error f => .error f
    | .ok e => .ok (false, e)
  else if ob.type ≠ env.OB_MESH then
    match set_err_str err_str err_not_mesh with
    | .error f => .error f
    | .ok e => .ok (false, e)
  else .ok (true, err_str)

/-! ## Import: `read_points_sample` and `read_mesh` -/

/-- Modelled from the spec: `BKE_mesh_new_nomain` (declared in `BKE_mesh.h`,
not in this file) returns a freshly created mesh with the requested number of
vertices, edges, faces, loops and polygons; its vertex array is zero-filled. -/
def BKE_mesh_new_nomain {H V Sel P N : Type} (env : ImportEnv H V Sel P N)
    (verts_len edges_len tessface_len loops_len polys_len : Nat) : Mesh V :=
  { name := "", totvert := verts_len, totedge := edges_len, totface := tessface_len,
    totloop := loops_len, totpoly := polys_len,
    mvert := List.replicate verts_len env.zero_vert }

/-- The function `read_points_sample(schema, selector, config)`, as the new
contents of the vertex array `config.mvert`. -/
def read_points_sample {H V Sel P N : Type} (env : ImportEnv H V Sel P N)
    (schema : IPointsSchema Sel P N) (selector : Sel) (config_mvert : List V) :
    Except Fault (List V) :=
  match schema.getValue selector with
  | .error what => .error (.uncaught what)
  | .ok sample =>
    let positions := sample.positions
    let vnormals : Option (List N) :=
      if schema.has_property_N then
        match schema.normals_prop selector with
        | some normals_getValue => some (normals_getValue selector)
        | none => none
      else none
    .ok (env.read_mverts config_mvert positions vnormals)

/-- Which mesh a returned `Mesh *` is. -/
inductive MeshPtr where
  | existing_mesh
  | new_mesh
deriving DecidableEq, Repr

/-- What a call of `read_mesh` leaves behind: the returned pointer, the
contents of `*existing_mesh`, the mesh allocated by `BKE_mesh_new_nomain` if
there is one, and `err_str`. -/
structure ReadMesh (V : Type) where
  ret : MeshPtr
  existing_mesh : Mesh V
  new_mesh : Option (Mesh V)
  err_str : ErrStr
deriving DecidableEq, Repr

/-- The mesh the returned pointer points to. -/
def ReadMesh.returned {V : Type} (r : ReadMesh V) : Mesh V :=
  match r.ret, r.new_mesh with
  | .new_mesh, some m => m
  | _, _ => r.existing_mesh

/-- The message `read_mesh` sets when reading the sample raises. -/
def err_reading_sample : String :=
  "Error reading points sample; more detail on the console"

/-- The method `AbcPointsReader::read_mesh`. The line printed to the console
in the `catch` block is not part of the result. -/
def read_mesh {H V Sel P N : Type} (env : ImportEnv H V Sel P N)
    (m_schema : IPointsSchema Sel P N) (existing_mesh : Mesh V) (sample_sel : Sel)
    (_read_flag : Int) (err_str : ErrStr) : Except Fault (ReadMesh V) :=
  match m_schema.getValue sample_sel with
  | .error _ =>
    match set_err_str err_str err_reading_sample with
    | .error f => .error f
    | .ok e =>
      .ok { ret := .existing_mesh, existing_mesh := existing_mesh, new_mesh := none,
            err_str := e }
  | .ok sample =>
    let positions := sample.positions
    let new_mesh : Option (Mesh V) :=
      if existing_mesh.totvert ≠ positions.length then
        some (BKE_mesh_new_nomain env positions.length 0 0 0 0)
      else none
    match new_mesh with
    | some nm =>
      match read_points_sample env m_schema sample_sel nm.mvert with
      | .error f => .error f
      | .ok mv =>
        .ok { ret := .new_mesh, existing_mesh := existing_mesh,
              new_mesh := some { nm with mvert := mv }, err_str := err_str }
    | none =>
      match read_points_sample env m_schema sample_sel existing_mesh.mvert with
      | .error f => .error f
      | .ok mv =>
        .ok { ret := .existing_mesh, existing_mesh := { existing_mesh with mvert := mv },
              new_mesh := none, err_str := err_str }

/-! ## Import: `readObjectData` -/

/-- Modelled from the spec: `BKE_mesh_add` (declared in `BKE_mesh.h`, not in
this file) adds a new, empty mesh datablock of the given name to `bmain` and
returns it. The result is the new `bmain`, the pointer and the mesh. -/
def BKE_mesh_add {V : Type} (bmain : Main V) (name : String) : Main V × Nat × Mesh V :=
  let mesh : Mesh V :=
    { name := name, totvert := 0, totedge := 0, totface := 0, totloop := 0, totpoly := 0,
      mvert := [] }
  ({ bmain with meshes := bmain.meshes ++ [mesh] }, bmain.meshes.length, mesh)

/-- Modelled from the spec: `BKE_object_add_only_object` (declared in
`BKE_object.h`, not in this file) adds a new object of the given type and name,
without data, to `bmain` and returns it. -/
def BKE_object_add_only_object {V : Type} (bmain : Main V) (type : Int) (name : String) :
    Main V × Nat × Object :=
  let ob : Object := { name := name, type := type, data := none, modifiers := [] }
  ({ bmain with objects := bmain.objects ++ [ob] }, bmain.objects.length, ob)

/-- Modelled from the spec: `AbcObjectReader::addCacheModifier` (defined in
`abc_object.cc`, not in this file) attaches the playback mechanism, a mesh
sequence cache modifier, to `m_object`. -/
def addCacheModifier (ob : Object) : Object :=
  { ob with modifiers := ob.modifiers ++ [Modifier.meshSequenceCache] }

/-- The method `AbcPointsReader::readObjectData`: `bmain` and the reader after
the call. -/
def readObjectData {H V Sel P N : Type} (env : ImportEnv H V Sel P N)
    (rd : AbcPointsReader Sel P N) (bmain : Main V) (sample_sel : Sel) :
    Except Fault (Main V × AbcPointsReader Sel P N) :=
  let (bmain1, mesh, mesh0) := BKE_mesh_add bmain rd.m_data_name
  match read_mesh env rd.m_schema mesh0 sample_sel 0 none with
  | .error f => .error f
  | .ok r =>
    let mesh1 : Mesh V :=
      match r.ret, r.new_mesh with
      | .new_mesh, some nm => env.BKE_mesh_nomain_to_mesh nm r.existing_mesh
      | _, _ => r.existing_mesh
    let mesh2 : Mesh V :=
      if rd.m_settings.validate_meshes then env.BKE_mesh_validate mesh1 else mesh1
    let bmain2 : Main V := { bmain1 with meshes := bmain1.meshes.set mesh mesh2 }
    let (bmain3, m_object, ob0) := BKE_object_add_only_object bmain2 env.OB_MESH rd.m_object_name
    let ob1 : Object := { ob0 with data := some mesh }
    let ob2 : Object :=
      if env.has_animations rd.m_schema rd.m_settings then addCacheModifier ob1 else ob1
    .ok ({ bmain3 with objects := bmain3.objects.set m_object ob2 },
         { rd with m_object := some m_object })

/-! ## Concrete inputs -/

/-- A particle key with every field zero. -/
def zeroKey : ParticleKey Int :=
  { co := ⟨0, 0, 0⟩, vel := ⟨0, 0, 0⟩, rot := (0, 0, 0, 0), ave := ⟨0, 0, 0⟩, time := 0 }

/-- An export environment over the integers: the masks have the values of
`DNA_particle_types.h`, `imat` is a translation by 10 along x, and the state
query succeeds for every particle `p` with position `(p, 2, 3)`. -/
def demoExportEnv : ExportEnv Int :=
  { PARS_NO_DISP := 2
    PARS_UNEXIST := 1
    ctime := 1
    mul_v3_m4v3_imat := fun v => ⟨v.x + 10, v.y, v.z⟩
    psys_get_particle_state := fun p st => (1, { st with co := ⟨p, 2, 3⟩ })
    bounds := (⟨0, 0, 0⟩, ⟨0, 0, 0⟩)
    state0 := zeroKey }

/-- A particle system of three particles at one frame, all shown. -/
def frameC : ParticleSystem Int :=
  { particles := [{ prev_state := zeroKey, flag := 0, size := 5 },
                  { prev_state := zeroKey, flag := 0, size := 7 },
                  { prev_state := zeroKey, flag := 0, size := 9 }] }

/-- The particle system of `frameC` at another frame, where particle 2 has
`PARS_NO_DISP` set. -/
def frameD : ParticleSystem Int :=
  { particles := [{ prev_state := zeroKey, flag := 0, size := 5 },
                  { prev_state := zeroKey, flag := 0, size := 7 },
                  { prev_state := zeroKey, flag := 2, size := 9 }] }

/-- A particle system of two particles, both shown, at one frame. -/
def frameA : ParticleSystem Int :=
  { particles := [{ prev_state := zeroKey, flag := 0, size := 5 },
                  { prev_state := zeroKey, flag := 0, size := 7 }] }

/-- The same particle system at another frame, where particle 0 has
`PARS_UNEXIST` set. -/
def frameB : ParticleSystem Int :=
  { particles := [{ prev_state := zeroKey, flag := 1, size := 5 },
                  { prev_state := zeroKey, flag := 0, size := 7 }] }

/-- An import environment over integer vectors: `OB_MESH` has the value of
`DNA_object_types.h`, a header is the schema title, and `read_mverts` turns
each position from Y-up to Z-up. -/
def demoImportEnv : ImportEnv String (V3 Int) Nat (V3 Int) (V3 Int) :=
  { OB_MESH := 1
    IPoints_matches := fun title => title == "AbcGeom_Points_v1"
    read_mverts := fun mvert positions _ =>
      positions.map (fun v => ⟨v.x, -v.z, v.y⟩) ++ mvert.drop positions.length
    BKE_mesh_validate := fun m => m
    BKE_mesh_nomain_to_mesh := fun src dst => { src with name := dst.name }
    has_animations := fun _ _ => false
    zero_vert := ⟨0, 0, 0⟩ }

/-- A schema whose every sample has the two positions (1,2,3) and (4,5,6). -/
def twoPointSchema : IPointsSchema Nat (V3 Int) (V3 Int) :=
  { getValue := fun _ => .ok { positions := [⟨1, 2, 3⟩, ⟨4, 5, 6⟩] }
    has_property_N := false
    normals_prop := fun _ => none }

/-- A schema for which reading any sample raises an Alembic exception. -/
def brokenSchema : IPointsSchema Nat (V3 Int) (V3 Int) :=
  { getValue := fun _ => .error "sample data is truncated"
    has_property_N := false
    normals_prop := fun _ => none }

/-- A reader on `brokenSchema`. -/
def brokenReader : AbcPointsReader Nat (V3 Int) (V3 Int) :=
  { m_schema := brokenSchema
    m_settings := { validate_meshes := false }
    m_object := none
    m_data_name := "points"
    m_object_name := "points" }

/-- A reader on `twoPointSchema`. -/
def twoPointReader : AbcPointsReader Nat (V3 Int) (V3 Int) :=
  { m_schema := twoPointSchema
    m_settings := { validate_meshes := false }
    m_object := none
    m_data_name := "points"
    m_object_name := "points" }

/-- A database without datablocks. -/
def emptyMain : Main (V3 Int) :=
  { meshes := [], objects := [] }

/-- A mesh of three vertices. -/
def triMesh : Mesh (V3 Int) :=
  { name := "tri", totvert := 3, totedge := 0, totface := 0, totloop := 0, totpoly := 0,
    mvert := [⟨0, 0, 0⟩, ⟨1, 0, 0⟩, ⟨0, 1, 0⟩] }

/-! ## Export: theorems -/

theorem land_lor_eq_zero_iff (a b c : Nat) :
    a &&& (b ||| c) = 0 ↔ a &&& b = 0 ∧ a &&& c = 0 := by
  rw [Nat.and_or_distrib_left]
  constructor
  · intro h
    constructor
    · apply Nat.eq_of_testBit_eq
      intro i
      have := congrArg (fun n => n.testBit i) h
      simp only [Nat.testBit_or, Nat.zero_testBit, Bool.or_eq_false_iff] at this
      simpa using this.1
    · apply Nat.eq_of_testBit_eq
      intro i
      have := congrArg (fun n => n.testBit i) h
      simp only [Nat.testBit_or, Nat.zero_testBit, Bool.or_eq_false_iff] at this
      simpa using this.2
  · rintro ⟨h1, h2⟩
    rw [h1, h2]
    rfl

theorem do_write_loop_append {F : Type} [Sub F] [Neg F] (env : ExportEnv F)
    (xs ys : List (ParticleData F)) (p : Nat) (s : WriteLoop F) :
    do_write_loop env p (xs ++ ys) s
      = do_write_loop env (p + xs.length) ys (do_write_loop env p xs s) := by
  induction xs generalizing p s with
  | nil => simp [do_write_loop]
  | cons x xs ih =>
    have e : p + (xs.length + 1) = p + 1 + xs.length := by omega
    simp only [List.cons_append, do_write_loop, List.length_cons, List.append_eq]
    rw [ih, e]

/-- Running the loop on one more particle is one more iteration. -/
theorem do_write_loop_take_succ {F : Type} [Sub F] [Neg F] (env : ExportEnv F)
    (parts : List (ParticleData F)) (k : Nat) (part : ParticleData F)
    (hk : parts[k]? = some part) :
    do_write_loop env 0 (parts.take (k + 1)) (WriteLoop.start env)
      = do_write_iter env k part (do_write_loop env 0 (parts.take k) (WriteLoop.start env)) := by
  have hlt : k < parts.length := by
    rcases Nat.lt_or_ge k parts.length with h | h
    · exact h
    · rw [List.getElem?_eq_none h] at hk
      cases hk
  rw [List.take_succ, hk, do_write_loop_append]
  simp [do_write_loop, List.length_take, Nat.min_eq_left (Nat.le_of_lt hlt)]

theorem isExported_iff {F : Type} [Sub F] [Neg F] (env : ExportEnv F)
    (parts : List (ParticleData F)) (k : Nat) (part : ParticleData F)
    (hk : parts[k]? = some part) :
    isExported env parts k = true ↔
      part.flag &&& (env.PARS_NO_DISP ||| env.PARS_UNEXIST) = 0 ∧
        (stateQuery env parts k).1 ≠ 0 := by
  simp [isExported, hk, land_lor_eq_zero_iff, and_assoc]

/-- One iteration keeps the arrays lined up with the exported indices. -/
theorem aligned_iter {F : Type} [Sub F] [Neg F] (env : ExportEnv F)
    (parts : List (ParticleData F)) (K : List Nat) (s : WriteLoop F) (k : Nat)
    (part : ParticleData F) (hk : parts[k]? = some part)
    (hs : s.state = stateBefore env parts k) (h : Aligned env parts K s) :
    Aligned env parts (K ++ if isExported env parts k = true then [k] else [])
      (do_write_iter env k part s) := by
  have hsq : env.psys_get_particle_state k { s.state with time := env.ctime }
      = stateQuery env parts k := by
    rw [hs]; rfl
  by_cases hflag : part.flag &&& (env.PARS_NO_DISP ||| env.PARS_UNEXIST) = 0
  · by_cases hq : (stateQuery env parts k).1 = 0
    · have he : ¬ (isExported env parts k = true) := by
        rw [isExported_iff env parts k part hk]; tauto
      rw [Bool.not_eq_true] at he
      simp only [do_write_iter, hflag, hsq, hq, he, if_false, if_true, ne_eq,
        not_true_eq_false, List.append_nil, Bool.false_eq_true]
      exact h
    · have he : isExported env parts k = true := by
        rw [isExported_iff env parts k part hk]; exact ⟨hflag, hq⟩
      obtain ⟨h1, h2, h3, h4, h5, h6⟩ := h
      simp only [do_write_iter, hflag, hsq, hq, he, if_false, if_true, ne_eq,
        not_true_eq_false]
      refine ⟨by simp [h1], by simp [h2], by simp [h3], by simp [h4], by simp [h5], ?_⟩
      intro i p hip
      rcases Nat.lt_or_ge i K.length with hi | hi
      · rw [List.getElem?_append_left hi] at hip
        obtain ⟨q, hq1, hq2, hq3, hq4, hq5⟩ := h6 i p hip
        refine ⟨q, hq1, ?_, ?_, ?_, ?_⟩
        · rw [List.getElem?_append_left (by omega)]; exact hq2
        · rw [List.getElem?_append_left (by omega)]; exact hq3
        · rw [List.getElem?_append_left (by omega)]; exact hq4
        · rw [List.getElem?_append_left (by omega)]; exact hq5
      · rw [List.getElem?_append_right hi] at hip
        have hi0 : i = K.length := by
          rcases Nat.eq_or_lt_of_le hi with e | e
          · exact e.symm
          · have : 1 ≤ i - K.length := by omega
            rw [List.getElem?_eq_none (by simpa using this)] at hip
            cases hip
        subst hi0
        simp only [Nat.sub_self, List.getElem?_cons_zero, Option.some.injEq] at hip
        subst hip
        refine ⟨part, hk, ?_, ?_, ?_, ?_⟩
        · rw [List.getElem?_append_right (by omega)]; simp [h2, pointOf]
        · rw [List.getElem?_append_right (by omega)]; simp [h3, velocityOf, sub_v3_v3v3]
        · rw [List.getElem?_append_right (by omega)]; simp [h4]
        · rw [List.getElem?_append_right (by omega)]; simp [h5, h1]
  · have he : ¬ (isExported env parts k = true) := by
      rw [isExported_iff env parts k part hk]; tauto
    rw [Bool.not_eq_true] at he
    simp only [do_write_iter, hflag, he, if_false, if_true, ne_eq, not_false_eq_true,
      List.append_nil, Bool.false_eq_true]
    exact h

/-- After the iterations on the particles `0 .. k-1` the arrays line up with
the exported indices below `k`. -/
theorem aligned_take {F : Type} [Sub F] [Neg F] (env : ExportEnv F)
    (parts : List (ParticleData F)) (k : Nat) (hk : k ≤ parts.length) :
    Aligned env parts ((List.range k).filter (isExported env parts))
      (do_write_loop env 0 (parts.take k) (WriteLoop.start env)) := by
  induction k with
  | zero =>
    simp only [List.range_zero, List.filter_nil, List.take_zero, do_write_loop]
    refine ⟨rfl, rfl, rfl, rfl, rfl, ?_⟩
    intro i p hip
    simp at hip
  | succ k ih =>
    have hlt : k < parts.length := hk
    have hget : parts[k]? = some parts[k] := List.getElem?_eq_getElem hlt
    rw [do_write_loop_take_succ env parts k _ hget, List.range_succ, List.filter_append]
    have := aligned_iter env parts _ _ k _ hget rfl (ih (Nat.le_of_lt hlt))
    simpa [List.filter_cons] using this

/-- The arrays `do_write` builds line up with the exported indices. -/
theorem aligned_do_write {F : Type} [Sub F] [Neg F] (env : ExportEnv F)
    (parts : List (ParticleData F)) :
    Aligned env parts (exportedIndices env parts)
      (do_write_loop env 0 parts (WriteLoop.start env)) := by
  have := aligned_take env parts parts.length (Nat.le_refl _)
  rwa [List.take_length] at this

theorem indexOf_filter_range (e : Nat → Bool) (n p : Nat) (hp : p < n) (he : e p = true) :
    ((List.range n).filter e).indexOf p = ((List.range p).filter e).length := by
  induction n with
  | zero => omega
  | succ n ih =>
    rw [List.range_succ, List.filter_append]
    rcases Nat.lt_or_ge p n with h | h
    · have hm : p ∈ (List.range n).filter e := by
        simp [List.mem_filter, h, he]
      rw [List.indexOf_append_of_mem hm]
      exact ih h
    · have hpn : p = n := by omega
      subst hpn
      have hm : p ∉ (List.range p).filter e := by
        simp [List.mem_filter]
      rw [List.indexOf_append_of_not_mem hm]
      simp [List.filter_cons, he]

/-- An exported particle gets as id the number of exported particles of lower
index. -/
theorem exportedId_eq_count_below {F : Type} [Sub F] [Neg F] (env : ExportEnv F)
    (psys : ParticleSystem F) (p : Nat) (he : isExported env psys.particles p = true) :
    exportedId env psys p
      = some ((List.range p).filter (isExported env psys.particles)).length := by
  have hlt : p < psys.particles.length := by
    rcases Nat.lt_or_ge p psys.particles.length with h | h
    · exact h
    · simp [isExported, List.getElem?_eq_none h] at he
  have hmem : p ∈ exportedIndices env psys.particles := by
    simp [exportedIndices, List.mem_filter, hlt, he]
  have hidx : (exportedIndices env psys.particles).indexOf p
      = ((List.range p).filter (isExported env psys.particles)).length :=
    indexOf_filter_range _ _ _ hlt he
  have hbound : (exportedIndices env psys.particles).indexOf p
      < (exportedIndices env psys.particles).length := List.indexOf_lt_length.mpr hmem
  obtain ⟨_, _, _, _, _, h6⟩ := aligned_do_write env psys.particles
  obtain ⟨q, hq⟩ := List.getElem?_eq_some_iff.mpr ⟨hbound, rfl⟩ |> fun h =>
    h6 _ _ h
  simp only [exportedId, hmem, if_true, do_write]
  rw [hq.2.2.2.2, hidx]

/-- The sample written for frame B: particle 0 is skipped, particle 1 is stored
with position `imat * (1, 2, 3) = (11, 2, 3)` turned to Y-up and id 0. -/
theorem do_write_frameB :
    do_write demoExportEnv (some frameB)
      = some { positions := [⟨11, 3, -2⟩], ids := [0], velocities := [⟨1, 3, -2⟩],
               widths := [7], selfBounds := (⟨0, 0, 0⟩, ⟨0, 0, 0⟩) } := by
  rfl

/-- Without a particle system `do_write` writes nothing. -/
theorem do_write_null_psys {F : Type} [Sub F] [Neg F] (env : ExportEnv F) :
    do_write env none = none :=
  rfl

/-- C1: the four arrays `do_write` exports have the same length `n`, the number
of particle indices `p` in `[0, totpart)` whose flag has neither `PARS_NO_DISP`
nor `PARS_UNEXIST` set and whose state query returns non-zero, and for every
`i < n` the `i`-th entry of each array is derived from the `i`-th such `p` in
increasing order (the `i`-th width is that particle's size). -/
theorem do_write_arrays_aligned {F : Type} [Sub F] [Neg F] (env : ExportEnv F)
    (psys : ParticleSystem F) :
    ∃ sample, do_write env (some psys) = some sample ∧
      (∀ p part, psys.particles[p]? = some part →
        (isExported env psys.particles p = true ↔
          part.flag &&& env.PARS_NO_DISP = 0 ∧ part.flag &&& env.PARS_UNEXIST = 0 ∧
            (stateQuery env psys.particles p).1 ≠ 0)) ∧
      (∀ p, p ∈ exportedIndices env psys.particles ↔
        p < psys.totpart ∧ isExported env psys.particles p = true) ∧
      (exportedIndices env psys.particles).Pairwise (fun a b => a < b) ∧
      (exportedIndices env psys.particles).length
        = (List.range psys.totpart).countP (isExported env psys.particles) ∧
      sample.positions.length = (exportedIndices env psys.particles).length ∧
      sample.velocities.length = (exportedIndices env psys.particles).length ∧
      sample.widths.length = (exportedIndices env psys.particles).length ∧
      sample.ids.length = (exportedIndices env psys.particles).length ∧
      ∀ i p : Nat, (exportedIndices env psys.particles)[i]? = some p →
        ∃ part, psys.particles[p]? = some part ∧
          sample.positions[i]? = some (pointOf env (stateQuery env psys.particles p).2) ∧
          sample.velocities[i]? = some (velocityOf part (stateQuery env psys.particles p).2) ∧
          sample.widths[i]? = some part.size ∧
          sample.ids[i]? = some i := by
  obtain ⟨_, h2, h3, h4, h5, h6⟩ := aligned_do_write env psys.particles
  refine ⟨_, rfl, ?_, ?_, ?_, ?_, h2, h3, h4, h5, h6⟩
  · intro p part hp
    simp [isExported, hp, and_assoc]
  · intro p
    simp [exportedIndices, ParticleSystem.totpart, List.mem_filter]
  · exact List.Pairwise.sublist (List.filter_sublist _) (List.pairwise_lt_range _)
  · simp [exportedIndices, ParticleSystem.totpart, List.countP_eq_length_filter]

/-- C2: for every exported particle, with `l = imat * state.co` and
`d = state.co - prev_state.co`, the exported position is `(l.x, l.z, -l.y)` and
the exported velocity is `(d.x, d.z, -d.y)`. -/
theorem do_write_zup_to_yup {F : Type} [Sub F] [Neg F] (env : ExportEnv F)
    (psys : ParticleSystem F) :
    ∃ sample, do_write env (some psys) = some sample ∧
      ∀ i p : Nat, (exportedIndices env psys.particles)[i]? = some p →
        ∃ part state, psys.particles[p]? = some part ∧
          state = (stateQuery env psys.particles p).2 ∧
          sample.positions[i]? = some
            ⟨(env.mul_v3_m4v3_imat state.co).x, (env.mul_v3_m4v3_imat state.co).z,
              -(env.mul_v3_m4v3_imat state.co).y⟩ ∧
          sample.velocities[i]? = some
            ⟨(sub_v3_v3v3 state.co part.prev_state.co).x,
              (sub_v3_v3v3 state.co part.prev_state.co).z,
              -(sub_v3_v3v3 state.co part.prev_state.co).y⟩ ∧
          sub_v3_v3v3 state.co part.prev_state.co
            = ⟨state.co.x - part.prev_state.co.x, state.co.y - part.prev_state.co.y,
                state.co.z - part.prev_state.co.z⟩ := by
  obtain ⟨_, _, _, _, _, h6⟩ := aligned_do_write env psys.particles
  refine ⟨_, rfl, ?_⟩
  intro i p hip
  obtain ⟨part, hp, hpos, hvel, _, _⟩ := h6 i p hip
  exact ⟨part, _, hp, rfl, hpos, hvel, rfl⟩

/-- C3, as stated, fails: frames A and B differ only in the flag of particle 0,
particle 1 is exported in both, and it gets id 1 in frame A and id 0 in
frame B. -/
theorem exportedId_not_stable :
    frameB.particles = [{ prev_state := zeroKey, flag := 1, size := 5 }] ++ frameA.particles.tail ∧
    frameA.particles[0]? = some { prev_state := zeroKey, flag := 0, size := 5 } ∧
    isExported demoExportEnv frameA.particles 1 = true ∧
    isExported demoExportEnv frameB.particles 1 = true ∧
    exportedId demoExportEnv frameA 1 = some 1 ∧
    exportedId demoExportEnv frameB 1 = some 0 := by
  decide

/-- C3, amended: a particle index `p` exported in two invocations of `do_write`
gets the same id in both whenever every particle of lower index is exported in
both invocations or in neither; that id is the number of exported particles of
lower index. -/
theorem exportedId_stable_of_lower_agree {F : Type} [Sub F] [Neg F]
    (env1 env2 : ExportEnv F) (psys1 psys2 : ParticleSystem F) (p : Nat)
    (hlow : ∀ q, q < p →
      isExported env1 psys1.particles q = isExported env2 psys2.particles q)
    (h1 : isExported env1 psys1.particles p = true)
    (h2 : isExported env2 psys2.particles p = true) :
    ∃ id, exportedId env1 psys1 p = some id ∧ exportedId env2 psys2 p = some id ∧
      id = ((List.range p).filter (isExported env1 psys1.particles)).length := by
  refine ⟨_, exportedId_eq_count_below env1 psys1 p h1, ?_, rfl⟩
  rw [exportedId_eq_count_below env2 psys2 p h2]
  congr 2
  apply List.filter_congr
  intro q hq
  exact (hlow q (List.mem_range.mp hq)).symm

/-- C3, amended, at frames C and D, which differ in the flag of particle 2, for
particle 1: it gets id 1 in both. -/
theorem exportedId_stable_of_lower_agree_witness :
    isExported demoExportEnv frameC.particles 1 = true ∧
    isExported demoExportEnv frameD.particles 1 = true ∧
    ∃ id, exportedId demoExportEnv frameC 1 = some id ∧
      exportedId demoExportEnv frameD 1 = some id ∧
      id = ((List.range 1).filter (isExported demoExportEnv frameC.particles)).length :=
  ⟨by decide, by decide,
    exportedId_stable_of_lower_agree demoExportEnv demoExportEnv frameC frameD 1
      (fun q hq => by
        have hq0 : q = 0 := by omega
        subst hq0
        decide)
      (by decide) (by decide)⟩

/-! ## Import: theorems -/

/-- The second `getValue` of a sample that was read once succeeds too. -/
theorem read_points_sample_ok {H V Sel P N : Type} (env : ImportEnv H V Sel P N)
    (schema : IPointsSchema Sel P N) (selector : Sel) (mvert : List V)
    (sample : IPointsSample P) (hread : schema.getValue selector = .ok sample) :
    ∃ vnormals, read_points_sample env schema selector mvert
      = .ok (env.read_mverts mvert sample.positions vnormals) := by
  simp only [read_points_sample, hread]
  exact ⟨_, rfl⟩

/-- C4: `accepts_object_type` returns true exactly when the header matches
`IPoints` and `ob->type == OB_MESH`; then `*err_str` is unchanged; when it
returns false `*err_str` is a non-empty message, and for a header that does not
match it is the "pointed to Points when importing, but not any more" message
whatever `ob->type` is. -/
theorem accepts_object_type_iff {H V Sel P N : Type} (env : ImportEnv H V Sel P N)
    (alembic_header : H) (ob : Object) (cell : Option String) :
    ∃ b e, accepts_object_type env alembic_header ob (some cell) = .ok (b, some e) ∧
      (b = true ↔ env.IPoints_matches alembic_header = true ∧ ob.type = env.OB_MESH) ∧
      (b = true → e = cell) ∧
      (b = false → ∃ msg, e = some msg ∧ msg ≠ "" ∧
        (env.IPoints_matches alembic_header = false → msg =
          "Object type mismatch, Alembic object path pointed to Points when importing, but not any more.")) := by
  by_cases hm : env.IPoints_matches alembic_header = true
  · by_cases ht : ob.type = env.OB_MESH
    · exact ⟨true, cell, by simp [accepts_object_type, hm, ht], by simp [hm, ht],
        fun _ => rfl, by simp⟩
    · refine ⟨false, some err_not_mesh, by simp [accepts_object_type, hm, ht, set_err_str],
        by simp [ht], by simp, fun _ => ⟨_, rfl, by decide, ?_⟩⟩
      intro hf
      rw [hf] at hm
      cases hm
  · rw [Bool.not_eq_true] at hm
    exact ⟨false, some err_not_points, by simp [accepts_object_type, hm, set_err_str],
      by simp [hm], by simp, fun _ => ⟨_, rfl, by decide, fun _ => by decide⟩⟩

/-- C5: when reading the sample succeeds, the returned mesh has as many
vertices as the sample has positions; it is `existing_mesh` itself exactly when
`existing_mesh->totvert` equals the position count, otherwise a freshly created
mesh with that many vertices and no edges, faces, loops and polygons; and the
positions are written into the returned mesh, an existing mesh of another size
being left as it was. -/
theorem read_mesh_returns_sized_mesh {H V Sel P N : Type} (env : ImportEnv H V Sel P N)
    (m_schema : IPointsSchema Sel P N) (existing_mesh : Mesh V) (sample_sel : Sel)
    (read_flag : Int) (err_str : ErrStr) (sample : IPointsSample P)
    (hread : m_schema.getValue sample_sel = .ok sample) :
    ∃ r vnormals, read_mesh env m_schema existing_mesh sample_sel read_flag err_str = .ok r ∧
      r.returned.totvert = sample.positions.length ∧
      (r.ret = MeshPtr.existing_mesh ↔ existing_mesh.totvert = sample.positions.length) ∧
      (r.ret = MeshPtr.existing_mesh →
        r.new_mesh = none ∧
        r.returned = r.existing_mesh ∧
        r.existing_mesh = { existing_mesh with
          mvert := env.read_mverts existing_mesh.mvert sample.positions vnormals }) ∧
      (r.ret = MeshPtr.new_mesh →
        r.new_mesh = some r.returned ∧
        r.returned.totedge = 0 ∧ r.returned.totface = 0 ∧
        r.returned.totloop = 0 ∧ r.returned.totpoly = 0 ∧
        r.returned.mvert = env.read_mverts
          (BKE_mesh_new_nomain env sample.positions.length 0 0 0 0).mvert
          sample.positions vnormals ∧
        r.existing_mesh = existing_mesh) := by
  by_cases hsize : existing_mesh.totvert = sample.positions.length
  · obtain ⟨vn, hvn⟩ := read_points_sample_ok env m_schema sample_sel existing_mesh.mvert
      sample hread
    have hne : ¬ (existing_mesh.totvert ≠ sample.positions.length) := fun h => h hsize
    refine ⟨_, vn, by simp only [read_mesh, hread, if_neg hne, hvn]; rfl, ?_⟩
    simp [ReadMesh.returned, hsize]
  · obtain ⟨vn, hvn⟩ := read_points_sample_ok env m_schema sample_sel
      (BKE_mesh_new_nomain env sample.positions.length 0 0 0 0).mvert sample hread
    have hne : existing_mesh.totvert ≠ sample.positions.length := hsize
    refine ⟨_, vn, by simp only [read_mesh, hread, if_pos hne, hvn]; rfl, ?_⟩
    simp [ReadMesh.returned, hsize, BKE_mesh_new_nomain]

/-- Reading the two-point sample into a mesh of three vertices: the new mesh
holds the two positions turned to Z-up. -/
theorem read_mesh_two_points :
    read_mesh demoImportEnv twoPointSchema triMesh 0 0 none
      = .ok { ret := MeshPtr.new_mesh, existing_mesh := triMesh,
              new_mesh := some { name := "", totvert := 2, totedge := 0, totface := 0,
                                 totloop := 0, totpoly := 0,
                                 mvert := [⟨1, -3, 2⟩, ⟨4, -6, 5⟩] },
              err_str := none } := by
  rfl

/-- C5 at a mesh of three vertices and a sample of two positions: a new mesh of
two vertices is returned and the existing one is left as it was. -/
theorem read_mesh_returns_sized_mesh_witness :
    twoPointSchema.getValue 0 = .ok { positions := [⟨1, 2, 3⟩, ⟨4, 5, 6⟩] } ∧
    ∃ r, read_mesh demoImportEnv twoPointSchema triMesh 0 0 none = .ok r ∧
      r.returned.totvert = 2 ∧ r.ret = MeshPtr.new_mesh ∧ r.existing_mesh = triMesh :=
  ⟨rfl, by
    obtain ⟨r, vn, h1, h2, h3, _, h5⟩ :=
      read_mesh_returns_sized_mesh demoImportEnv twoPointSchema triMesh 0 0 none
        { positions := [⟨1, 2, 3⟩, ⟨4, 5, 6⟩] } rfl
    have hret : r.ret = MeshPtr.new_mesh := by
      cases hr : r.ret with
      | existing_mesh => exact absurd (h3.mp hr) (by decide)
      | new_mesh => rfl
    exact ⟨r, h1, h2, hret, (h5 hret).2.2.2.2.2.2⟩⟩

/-- When reading the sample succeeds `read_mesh` returns and leaves `err_str`
as it was. -/
theorem read_mesh_ok {H V Sel P N : Type} (env : ImportEnv H V Sel P N)
    (m_schema : IPointsSchema Sel P N) (existing_mesh : Mesh V) (sample_sel : Sel)
    (read_flag : Int) (err_str : ErrStr) (sample : IPointsSample P)
    (hread : m_schema.getValue sample_sel = .ok sample) :
    ∃ r, read_mesh env m_schema existing_mesh sample_sel read_flag err_str = .ok r ∧
      r.err_str = err_str := by
  by_cases hsize : existing_mesh.totvert ≠ sample.positions.length
  · obtain ⟨vn, hvn⟩ := read_points_sample_ok env m_schema sample_sel
      (BKE_mesh_new_nomain env sample.positions.length 0 0 0 0).mvert sample hread
    exact ⟨_, by simp only [read_mesh, hread, if_pos hsize, hvn]; rfl, rfl⟩
  · obtain ⟨vn, hvn⟩ := read_points_sample_ok env m_schema sample_sel existing_mesh.mvert
      sample hread
    exact ⟨_, by simp only [read_mesh, hread, if_neg hsize, hvn]; rfl, rfl⟩

/-- When reading the sample raises and `err_str` is null, `read_mesh` writes
through the null pointer. -/
theorem read_mesh_null_err_str {H V Sel P N : Type} (env : ImportEnv H V Sel P N)
    (m_schema : IPointsSchema Sel P N) (existing_mesh : Mesh V) (sample_sel : Sel)
    (read_flag : Int) (what : String) (hread : m_schema.getValue sample_sel = .error what) :
    read_mesh env m_schema existing_mesh sample_sel read_flag none = .error Fault.nullDeref := by
  simp only [read_mesh, hread, set_err_str]

/-- C6: when reading the sample raises an Alembic exception and `err_str` is
not null, `read_mesh` returns `existing_mesh` itself, sets `*err_str` to "Error
reading points sample; more detail on the console", creates no mesh and leaves
`existing_mesh` as it was; when reading succeeds, `*err_str` is not written. -/
theorem read_mesh_error_reporting {H V Sel P N : Type} (env : ImportEnv H V Sel P N)
    (m_schema : IPointsSchema Sel P N) (existing_mesh : Mesh V) (sample_sel : Sel)
    (read_flag : Int) :
    (∀ what cell, m_schema.getValue sample_sel = .error what →
      read_mesh env m_schema existing_mesh sample_sel read_flag (some cell)
        = .ok { ret := MeshPtr.existing_mesh, existing_mesh := existing_mesh, new_mesh := none,
                err_str := some (some "Error reading points sample; more detail on the console") }) ∧
    (∀ sample err_str, m_schema.getValue sample_sel = .ok sample →
      ∃ r, read_mesh env m_schema existing_mesh sample_sel read_flag err_str = .ok r ∧
        r.err_str = err_str) := by
  constructor
  · intro what cell hread
    simp only [read_mesh, hread, set_err_str]
    rfl
  · intro sample err_str hread
    exact read_mesh_ok env m_schema existing_mesh sample_sel read_flag err_str sample hread

/-- C6 at a schema that raises, with `*err_str` null before the call, and at a
schema that can be read, with a message in `*err_str` before the call. -/
theorem read_mesh_error_reporting_witness :
    (brokenSchema.getValue 0 = .error "sample data is truncated" ∧
      read_mesh demoImportEnv brokenSchema triMesh 0 0 (some none)
        = .ok { ret := MeshPtr.existing_mesh, existing_mesh := triMesh, new_mesh := none,
                err_str := some (some "Error reading points sample; more detail on the console") }) ∧
    (twoPointSchema.getValue 0 = .ok { positions := [⟨1, 2, 3⟩, ⟨4, 5, 6⟩] } ∧
      ∃ r, read_mesh demoImportEnv twoPointSchema triMesh 0 0 (some (some "earlier")) = .ok r ∧
        r.err_str = some (some "earlier")) :=
  ⟨⟨rfl, (read_mesh_error_reporting demoImportEnv brokenSchema triMesh 0 0).1 _ none rfl⟩,
   ⟨rfl, (read_mesh_error_reporting demoImportEnv twoPointSchema triMesh 0 0).2 _ _ rfl⟩⟩

/-- When reading the sample raises, `readObjectData` stops at the write through
its null `err_str`: no object is created. -/
theorem readObjectData_null_err_str {H V Sel P N : Type} (env : ImportEnv H V Sel P N)
    (rd : AbcPointsReader Sel P N) (bmain : Main V) (sample_sel : Sel) (what : String)
    (hread : rd.m_schema.getValue sample_sel = .error what) :
    readObjectData env rd bmain sample_sel = .error Fault.nullDeref := by
  simp only [readObjectData, BKE_mesh_add]
  rw [read_mesh_null_err_str env rd.m_schema _ sample_sel 0 what hread]

/-- When reading the sample succeeds, `readObjectData` creates an object of
type `OB_MESH` whose data is the mesh it created, an object that
`accepts_object_type` accepts for every Points header, and attaches the cache
modifier exactly when `has_animations` holds. -/
theorem readObjectData_creates_mesh_object {H V Sel P N : Type} (env : ImportEnv H V Sel P N)
    (rd : AbcPointsReader Sel P N) (bmain : Main V) (sample_sel : Sel)
    (sample : IPointsSample P) (hread : rd.m_schema.getValue sample_sel = .ok sample) :
    ∃ bmain1 rd1 ob, readObjectData env rd bmain sample_sel = .ok (bmain1, rd1) ∧
      rd1.m_object = some bmain.objects.length ∧
      bmain1.objects[bmain.objects.length]? = some ob ∧
      bmain1.meshes.length = bmain.meshes.length + 1 ∧
      ob.type = env.OB_MESH ∧
      ob.data = some bmain.meshes.length ∧
      (Modifier.meshSequenceCache ∈ ob.modifiers ↔
        env.has_animations rd.m_schema rd.m_settings = true) ∧
      ∀ hdr e, env.IPoints_matches hdr = true →
        accepts_object_type env hdr ob e = .ok (true, e) := by
  obtain ⟨r, hr, _⟩ := read_mesh_ok env rd.m_schema (BKE_mesh_add bmain rd.m_data_name).2.2
    sample_sel 0 none sample hread
  simp only [BKE_mesh_add] at hr
  simp only [readObjectData, BKE_mesh_add, hr, BKE_object_add_only_object]
  by_cases ha : env.has_animations rd.m_schema rd.m_settings = true
  · simp only [if_pos ha]
    refine ⟨_, _, addCacheModifier ⟨rd.m_object_name, env.OB_MESH, some bmain.meshes.length, []⟩,
      rfl, rfl, ?_, ?_, ?_⟩
    · simp
    · simp
    · refine ⟨rfl, rfl, by simp [ha, addCacheModifier], ?_⟩
      intro hdr e hm
      simp [addCacheModifier, accepts_object_type, hm]
  · simp only [if_neg ha]
    refine ⟨_, _, ⟨rd.m_object_name, env.OB_MESH, some bmain.meshes.length, []⟩,
      rfl, rfl, ?_, ?_, ?_⟩
    · simp
    · simp
    · refine ⟨rfl, rfl, by simp [ha], ?_⟩
      intro hdr e hm
      simp [accepts_object_type, hm]

/-- Reading the two-point schema into an empty database: one mesh of two
vertices and one mesh object pointing to it, without cache modifier. -/
theorem readObjectData_two_points :
    ∃ bmain1 rd1, readObjectData demoImportEnv twoPointReader emptyMain 0 = .ok (bmain1, rd1) ∧
      rd1.m_object = some 0 ∧
      bmain1.objects = [{ name := "points", type := 1, data := some 0, modifiers := [] }] ∧
      bmain1.meshes = [{ name := "points", totvert := 2, totedge := 0, totface := 0,
                         totloop := 0, totpoly := 0, mvert := [⟨1, -3, 2⟩, ⟨4, -6, 5⟩] }] :=
  ⟨_, _, rfl, rfl, rfl, rfl⟩

/-- C7, the failing input: on a schema whose sample cannot be read
`readObjectData` creates no object, it stops at a write through the null
`err_str` it passed to `read_mesh`. -/
theorem readObjectData_broken_schema :
    brokenReader.m_schema.getValue 0 = .error "sample data is truncated" ∧
    readObjectData demoImportEnv brokenReader emptyMain 0 = .error Fault.nullDeref :=
  ⟨rfl, rfl⟩

/-- C8, the failing input: the call `read_mesh(mesh, sample_sel, 0, NULL)` that
`readObjectData` makes on a schema whose sample cannot be read writes through
the null `err_str`. -/
theorem read_mesh_broken_schema_null_err_str :
    (BKE_mesh_add emptyMain brokenReader.m_data_name).2.2
      = { name := "points", totvert := 0, totedge := 0, totface := 0, totloop := 0,
          totpoly := 0, mvert := [] } ∧
    read_mesh demoImportEnv brokenReader.m_schema
      (BKE_mesh_add emptyMain brokenReader.m_data_name).2.2 0 0 none
      = .error Fault.nullDeref :=
  ⟨rfl, rfl⟩

end AbcPoints
